import Mathlib

/-!
Verification development for the HackerNews MCP server's caching API client
(`src/utils/cache.ts` and `src/api/client.ts`).

The embedding is shallow:

* JavaScript `Map<string, CacheEntry<T>>` is modelled as an insertion-ordered
  association list `List (String × CacheEntry T)`.  `Map.set` on an existing
  key updates in place (keeping its position), otherwise appends; iteration
  order is insertion order; `Map.delete` removes the (unique) binding.
* `Date.now()` is passed explicitly as a natural number of milliseconds
  (`now`), so every stateful operation takes the current time as a parameter.
* JavaScript truthiness on optional numbers/strings is modelled explicitly:
  `0`, `""` and `undefined` are falsy (`truthyInt`, `truthyStr`, `truthyNat`).
* The network is an oracle `FetchOutcome` per request: a 2xx response with a
  parsed JSON body (possibly `null`), a non-2xx response with its status, or
  a rejected fetch with an error message.  Timeouts and JSON-decode failures
  behave exactly like rejected fetches as far as the client's `catch` blocks
  are concerned, so they are subsumed by `networkError`.
* `async`/`Promise.all` code runs on one logical thread; batched parallel
  fetches are assembled in input order, so they are modelled by sequential
  folds that thread the cache state.  (Batch sizes 10 / 5 only group the
  concurrent fetches; they do not affect the sequentially-assembled result.)
* Fallible operations return `Except ClientError α`; thrown
  `HackerNewsClientError` values are `ClientError` records carrying the
  message and the optional numeric status code.  Each operation additionally
  reports the number of network requests it issued.
-/

/-! ## Data model (`src/types/hackernews.ts`) -/

/-- Source `HackerNewsItem`: mirrors the upstream item schema; all fields except
`id` are optional. -/
structure Item where
  id : Int
  deleted : Option Bool := none
  type : Option String := none
  by_ : Option String := none
  time : Option Int := none
  text : Option String := none
  dead : Option Bool := none
  parent : Option Int := none
  poll : Option Int := none
  kids : Option (List Int) := none
  url : Option String := none
  score : Option Int := none
  title : Option String := none
  parts : Option (List Int) := none
  descendants : Option Int := none
deriving DecidableEq, Repr

/-- Source `HackerNewsUser`: `id`, `created` and `karma` are required upstream. -/
structure HNUser where
  id : String
  delay : Option Int := none
  created : Int
  karma : Int
  about : Option String := none
  submitted : Option (List Int) := none
deriving DecidableEq, Repr

/-- Source `HackerNewsUpdates`: changed item IDs and changed profile names. -/
structure Updates where
  items : List Int
  profiles : List String
deriving DecidableEq, Repr

/-- Source `SearchParams` (`src/types/hackernews.ts`): all filter fields optional.
`limit` is a count, modelled as `Option Nat`. -/
structure SearchParams where
  query : Option String := none
  author : Option String := none
  startTime : Option Int := none
  endTime : Option Int := none
  minScore : Option Int := none
  itemType : Option String := none
  limit : Option Nat := none
deriving DecidableEq, Repr

/-! ## JavaScript truthiness helpers -/

/-- JS truthiness of an optional string: `undefined` and `""` are falsy. -/
def truthyStr : Option String → Bool
  | some s => s ≠ ""
  | none => false

/-- JS truthiness of an optional number: `undefined` and `0` are falsy. -/
def truthyInt : Option Int → Bool
  | some n => n ≠ 0
  | none => false

/-- JS truthiness of an optional count: `undefined` and `0` are falsy. -/
def truthyNat : Option Nat → Bool
  | some n => n ≠ 0
  | none => false

/-! ## Bounded expiring cache (`src/utils/cache.ts`) -/

/-- Source `CacheEntry<T>`: a stored value with its absolute expiry time (ms). -/
structure CacheEntry (T : Type) where
  value : T
  expiresAt : Nat
deriving DecidableEq, Repr

/-- Lookup in the insertion-ordered map (JS `Map.get`). -/
def mapFind {T : Type} (m : List (String × CacheEntry T)) (k : String) :
    Option (CacheEntry T) :=
  match m with
  | [] => none
  | (k', e) :: rest => if k' = k then some e else mapFind rest k

/-- JS `Map.set`: update in place if the key is present (keeping its
position), otherwise append at the end. -/
def mapSet {T : Type} (m : List (String × CacheEntry T)) (k : String)
    (e : CacheEntry T) : List (String × CacheEntry T) :=
  match m with
  | [] => [(k, e)]
  | (k', e') :: rest =>
      if k' = k then (k, e) :: rest else (k', e') :: mapSet rest k e

/-- JS `Map.delete`: remove the binding for `k` (keys are unique in a map,
so removing the first occurrence suffices). -/
def mapDelete {T : Type} (m : List (String × CacheEntry T)) (k : String) :
    List (String × CacheEntry T) :=
  match m with
  | [] => []
  | (k', e') :: rest =>
      if k' = k then rest else (k', e') :: mapDelete rest k

/-- Source `SimpleCache<T>`: insertion-ordered entries plus the construction-time
`ttlMs` and `maxSize`. -/
structure SimpleCache (T : Type) where
  entries : List (String × CacheEntry T)
  ttlMs : Nat
  maxSize : Nat
deriving DecidableEq, Repr

namespace SimpleCache

/-- The constructor `new SimpleCache(ttlSeconds, maxSize)`:
`ttlMs = ttlSeconds * 1000`, empty map. -/
def empty (T : Type) (ttlSeconds maxSize : Nat) : SimpleCache T :=
  { entries := [], ttlMs := ttlSeconds * 1000, maxSize := maxSize }

/-- Source `cleanup()`: delete every entry with `now > expiresAt`. -/
def cleanupList {T : Type} (now : Nat) (m : List (String × CacheEntry T)) :
    List (String × CacheEntry T) :=
  m.filter (fun kv => !(decide (now > kv.2.expiresAt)))

/-- Source `set(key, value)`: no-op when `maxSize == 0 || ttlMs == 0`; otherwise,
at capacity first `cleanup()`, then — if still at capacity — delete the
first key of the map, but only if that key is truthy (the source guards the
deletion with `if (firstKey)`, so an empty-string first key is never
evicted); finally `Map.set` the new entry with `expiresAt = now + ttlMs`. -/
def set {T : Type} (c : SimpleCache T) (now : Nat) (key : String) (value : T) :
    SimpleCache T :=
  if c.maxSize = 0 ∨ c.ttlMs = 0 then c
  else
    let e1 := if c.entries.length ≥ c.maxSize
              then cleanupList now c.entries else c.entries
    let e2 := if e1.length ≥ c.maxSize then
                match e1.head? with
                | some (k0, _) => if k0 ≠ "" then mapDelete e1 k0 else e1
                | none => e1
              else e1
    { c with entries := mapSet e2 key ⟨value, now + c.ttlMs⟩ }

/-- Source `get(key)`: absent if no entry; if present but `now > expiresAt`, delete
the entry (side effect) and report absent; otherwise return the value. -/
def get {T : Type} (c : SimpleCache T) (now : Nat) (key : String) :
    Option T × SimpleCache T :=
  match mapFind c.entries key with
  | none => (none, c)
  | some e =>
      if now > e.expiresAt then
        (none, { c with entries := mapDelete c.entries key })
      else (some e.value, c)

/-- Source `size()`: cleanup first, then count. -/
def size {T : Type} (c : SimpleCache T) (now : Nat) : Nat × SimpleCache T :=
  let cleaned := cleanupList now c.entries
  (cleaned.length, { c with entries := cleaned })

/-- Source `clear()`. -/
def clear {T : Type} (c : SimpleCache T) : SimpleCache T :=
  { c with entries := [] }

end SimpleCache

/-! ## HackerNews API client (`src/api/client.ts`) -/

/-- Outcome of one HTTP request as seen by `fetchWithTimeout`'s caller:
a 2xx response whose parsed JSON body may be `null` (`ok none`), a non-2xx
response with its numeric status and status text, or a rejected fetch
carrying an error message.  A timeout abort and a JSON-decode failure reach
the operations' `catch` blocks exactly like a rejected fetch (an `Error`
with a message), so `networkError` subsumes them. -/
inductive FetchOutcome (α : Type) where
  | ok : Option α → FetchOutcome α
  | httpError : Nat → String → FetchOutcome α
  | networkError : String → FetchOutcome α
deriving DecidableEq, Repr

/-- Source `HackerNewsClientError`: message plus optional numeric HTTP status. -/
structure ClientError where
  message : String
  statusCode : Option Nat := none
deriving DecidableEq, Repr

/-- Source `fetchWithTimeout` (lines 248-268): on a non-2xx response it throws
`new HackerNewsClientError("HTTP {status}: {statusText}", status)` — the
only place a `statusCode` is ever attached; a rejected fetch propagates its
original error (message only); a 2xx response yields the parsed body. -/
def fetchWithTimeout {α : Type} (outcome : FetchOutcome α) :
    Except ClientError (Option α) :=
  match outcome with
  | .ok body => .ok body
  | .httpError status statusText =>
      .error { message := "HTTP " ++ toString status ++ ": " ++ statusText,
               statusCode := some status }
  | .networkError msg => .error { message := msg, statusCode := none }

/-- Source `cacheOptions` of `HackerNewsClientOptions`. -/
structure CacheOptions where
  ttlSeconds : Nat
  maxSize : Nat
deriving DecidableEq, Repr

/-- Construction parameters of the client (base URL and timeout do not
affect any modelled behaviour beyond message strings and are omitted). -/
structure ClientOptions where
  cacheOptions : Option CacheOptions := none
deriving DecidableEq, Repr

/-- The client's mutable state: its three caches. -/
structure HackerNewsClient where
  itemCache : SimpleCache Item
  userCache : SimpleCache HNUser
  listCache : SimpleCache (List Int)
deriving DecidableEq, Repr

/-- The constructor (lines 38-46): defaults `{ttlSeconds := 300, maxSize :=
1000}`; the list cache gets `Math.floor(maxSize / 10)` (Nat division). -/
def mkClient (options : ClientOptions) : HackerNewsClient :=
  let cacheOptions := options.cacheOptions.getD
    { ttlSeconds := 300, maxSize := 1000 }
  { itemCache := SimpleCache.empty Item cacheOptions.ttlSeconds cacheOptions.maxSize
    userCache := SimpleCache.empty HNUser cacheOptions.ttlSeconds cacheOptions.maxSize
    listCache := SimpleCache.empty (List Int) cacheOptions.ttlSeconds
      (cacheOptions.maxSize / 10) }

/-- Source `getItem(id)` (lines 49-70): cache key `item:{id}`; on hit return the
cached item (the hit test `if (cached)` is truthy exactly when an item
object was returned); on miss fetch, cache the item only when non-null
(`if (item)`), and wrap any thrown error into a fresh
`HackerNewsClientError` with message
`Failed to fetch item {id}: {error.message}` and no status code.
Returns (result, updated client, number of network requests issued). -/
def getItem (upstreamItem : Int → FetchOutcome Item) (now : Nat)
    (c : HackerNewsClient) (id : Int) :
    Except ClientError (Option Item) × HackerNewsClient × Nat :=
  let cacheKey := "item:" ++ toString id
  let res := c.itemCache.get now cacheKey
  match res.1 with
  | some cached => (.ok (some cached), { c with itemCache := res.2 }, 0)
  | none =>
    match fetchWithTimeout (upstreamItem id) with
    | .ok (some item) =>
        (.ok (some item),
         { c with itemCache := res.2.set now cacheKey item }, 1)
    | .ok none => (.ok none, { c with itemCache := res.2 }, 1)
    | .error e =>
        (.error { message := "Failed to fetch item " ++ toString id ++ ": "
                    ++ e.message,
                  statusCode := none },
         { c with itemCache := res.2 }, 1)

/-- Source `getUser(id)` (lines 72-93): same pattern, cache key `user:{id}`. -/
def getUser (upstreamUser : String → FetchOutcome HNUser) (now : Nat)
    (c : HackerNewsClient) (id : String) :
    Except ClientError (Option HNUser) × HackerNewsClient × Nat :=
  let cacheKey := "user:" ++ id
  let res := c.userCache.get now cacheKey
  match res.1 with
  | some cached => (.ok (some cached), { c with userCache := res.2 }, 0)
  | none =>
    match fetchWithTimeout (upstreamUser id) with
    | .ok (some user) =>
        (.ok (some user),
         { c with userCache := res.2.set now cacheKey user }, 1)
    | .ok none => (.ok none, { c with userCache := res.2 }, 1)
    | .error e =>
        (.error { message := "Failed to fetch user " ++ id ++ ": "
                    ++ e.message,
                  statusCode := none },
         { c with userCache := res.2 }, 1)

/-- Source `getMaxItemId()` (lines 95-103): uncached; wraps errors with message
`Failed to fetch max item ID: {error.message}` and no status code. -/
def getMaxItemId (upstream : FetchOutcome Int) :
    Except ClientError (Option Int) × Nat :=
  match fetchWithTimeout upstream with
  | .ok v => (.ok v, 1)
  | .error e =>
      (.error { message := "Failed to fetch max item ID: " ++ e.message,
                statusCode := none }, 1)

/-- Source `getStoryList(endpoint)` (lines 228-246): cache key `list:{endpoint}`;
on miss fetch and cache the ID list, wrapping errors with message
`Failed to fetch {endpoint}: {error.message}` and no status code.  The six
public list fetchers each call this with their endpoint name.  (A 2xx
response for a list endpoint is modelled as carrying the ID array; the
degenerate `null`-body case is not modelled for list endpoints.) -/
def getStoryList (upstreamList : String → FetchOutcome (List Int)) (now : Nat)
    (c : HackerNewsClient) (endpoint : String) :
    Except ClientError (List Int) × HackerNewsClient × Nat :=
  let cacheKey := "list:" ++ endpoint
  let res := c.listCache.get now cacheKey
  match res.1 with
  | some cached => (.ok cached, { c with listCache := res.2 }, 0)
  | none =>
    match upstreamList endpoint with
    | .ok (some stories) =>
        (.ok stories, { c with listCache := res.2.set now cacheKey stories }, 1)
    | .ok none =>
        -- not modelled: upstream `null` body for a list endpoint
        (.ok [], { c with listCache := res.2 }, 1)
    | .httpError status statusText =>
        (.error { message := "Failed to fetch " ++ endpoint ++ ": HTTP "
                    ++ toString status ++ ": " ++ statusText,
                  statusCode := none },
         { c with listCache := res.2 }, 1)
    | .networkError msg =>
        (.error { message := "Failed to fetch " ++ endpoint ++ ": " ++ msg,
                  statusCode := none },
         { c with listCache := res.2 }, 1)

/-- Source `getTopStories()` (lines 106-108). -/
def getTopStories (upstreamList : String → FetchOutcome (List Int)) (now : Nat)
    (c : HackerNewsClient) :
    Except ClientError (List Int) × HackerNewsClient × Nat :=
  getStoryList upstreamList now c "topstories"

/-- Source `getUpdates()` (lines 130-138): uncached; wraps errors with message
`Failed to fetch updates: {error.message}` and no status code. -/
def getUpdates (upstream : FetchOutcome Updates) :
    Except ClientError (Option Updates) × Nat :=
  match fetchWithTimeout upstream with
  | .ok v => (.ok v, 1)
  | .error e =>
      (.error { message := "Failed to fetch updates: " ++ e.message,
                statusCode := none }, 1)

/-! ## Composite operations -/

/-- Sequential fold over `ids` calling `getItem` for each, threading the
cache and summing network requests.  This models `Promise.all` over
`getItem` calls (used by `getMultipleItems`, `searchStories` and
`getUserWithStats`): results are assembled in input order, and a rejection
of any single `getItem` rejects the whole combination (`Promise.all`
semantics — none of these call sites catches an individual failure). -/
def fetchItemsSeq (upstreamItem : Int → FetchOutcome Item) (now : Nat)
    (c : HackerNewsClient) (ids : List Int) :
    Except ClientError (List (Option Item)) × HackerNewsClient × Nat :=
  match ids with
  | [] => (.ok [], c, 0)
  | id :: rest =>
    match getItem upstreamItem now c id with
    | (.error e, c', n) => (.error e, c', n)
    | (.ok item, c', n) =>
      match fetchItemsSeq upstreamItem now c' rest with
      | (.error e, c'', m) => (.error e, c'', n + m)
      | (.ok items, c'', m) => (.ok (item :: items), c'', n + m)

/-- Source `getMultipleItems(ids)` (lines 214-225): fetches `ids` in batches of 10
via `Promise.all(batch.map(id => this.getItem(id)))` and concatenates the
batch results in order.  The batch size only groups the concurrent fetches;
the assembled result and the rejection behaviour are those of the
sequential fold. -/
def getMultipleItems (upstreamItem : Int → FetchOutcome Item) (now : Nat)
    (c : HackerNewsClient) (ids : List Int) :
    Except ClientError (List (Option Item)) × HackerNewsClient × Nat :=
  fetchItemsSeq upstreamItem now c ids

/-- Source `StoryWithMetadata`: the item spread together with the derived fields. -/
structure StoryWithMetadata where
  item : Item
  commentCount : Int
  ageHours : Rat
  domain : Option String
deriving DecidableEq, Repr

/-- Source `getStoryWithMetadata(id)` (lines 141-157): `null` when the item is
absent or not a story; otherwise `commentCount = descendants || 0`,
`ageHours = item.time ? (Date.now()/1000 - time)/3600 : 0`, and
`domain = item.url ? extractDomain(url) : undefined`.  `extractDomain`
delegates to the platform's `new URL(...)` hostname parser, which is passed
in as the oracle `extractDomain`. -/
def getStoryWithMetadata (upstreamItem : Int → FetchOutcome Item)
    (extractDomain : String → Option String) (now : Nat)
    (c : HackerNewsClient) (id : Int) :
    Except ClientError (Option StoryWithMetadata) × HackerNewsClient × Nat :=
  match getItem upstreamItem now c id with
  | (.error e, c', n) => (.error e, c', n)
  | (.ok none, c', n) => (.ok none, c', n)
  | (.ok (some item), c', n) =>
    if item.type ≠ some "story" then (.ok none, c', n)
    else
      (.ok (some
        { item := item
          commentCount := item.descendants.getD 0
          ageHours := if truthyInt item.time
            then (((now : Rat) / 1000) - ((item.time.getD 0 : Int) : Rat)) / 3600
            else 0
          domain := if truthyStr item.url
            then extractDomain (item.url.getD "") else none }), c', n)

/-- Source `UserWithStats`: the user spread together with the derived fields. -/
structure UserWithStats where
  user : HNUser
  averageScore : Option Rat
  topStories : List Item
  recentActivity : List Item
deriving DecidableEq, Repr

/-- Source `getUserWithStats(id)` (lines 159-184): `null` when the user is absent;
otherwise fetch the first 10 submitted IDs via `Promise.all` of `getItem`
(so a single rejected fetch rejects the whole call), drop `null` results,
compute `averageScore` as the mean `score || 0` over the `type=="story"`
subset (undefined when there are none), `topStories` as the first 5 stories
and `recentActivity` as the first 5 non-null items. -/
def getUserWithStats (upstreamUser : String → FetchOutcome HNUser)
    (upstreamItem : Int → FetchOutcome Item) (now : Nat)
    (c : HackerNewsClient) (id : String) :
    Except ClientError (Option UserWithStats) × HackerNewsClient × Nat :=
  match getUser upstreamUser now c id with
  | (.error e, c', n) => (.error e, c', n)
  | (.ok none, c', n) => (.ok none, c', n)
  | (.ok (some user), c', n) =>
    let recentSubmissions := (user.submitted.getD []).take 10
    match fetchItemsSeq upstreamItem now c' recentSubmissions with
    | (.error e, c'', m) => (.error e, c'', n + m)
    | (.ok recentItems, c'', m) =>
      let validItems := recentItems.filterMap (fun o => o)
      let stories := validItems.filter (fun it => it.type = some "story")
      let averageScore : Option Rat :=
        if stories.length > 0 then
          some (((stories.map (fun s => ((s.score.getD 0 : Int) : Rat))).sum)
                  / (stories.length : Rat))
        else none
      (.ok (some
        { user := user
          averageScore := averageScore
          topStories := stories.take 5
          recentActivity := validItems.take 5 }), c'', n + m)

/-! ## Search (`searchStories` / `filterStories`, lines 187-200, 270-298) -/

/-- Case-insensitive character list for `String.toLowerCase()`. -/
def toLowerList (s : String) : List Char :=
  s.toList.map Char.toLower

/-- JS `hay.includes(needle)` on character lists. -/
def containsSub (hay needle : List Char) : Bool :=
  needle.isPrefixOf hay ||
    (match hay with
     | [] => false
     | _ :: t => containsSub t needle)

/-- The predicate of `filterStories` (lines 270-298), transliterating each
early `return false`.  Every guard uses JS truthiness: a filter field that
is `undefined`, `0` or `""` is skipped, and the title/time conditions also
require the story's own field to be truthy (`story.title &&`,
`story.time &&`), so a story lacking that field passes the condition. -/
def filterStory (params : SearchParams) (story : Item) : Bool :=
  if truthyStr params.query && truthyStr story.title &&
      !containsSub (toLowerList (story.title.getD ""))
        (toLowerList (params.query.getD "")) then false
  else if truthyStr params.author && decide (story.by_ ≠ params.author) then
    false
  else if truthyInt params.minScore &&
      decide (story.score.getD 0 < params.minScore.getD 0) then false
  else if truthyInt params.startTime && truthyInt story.time &&
      decide (story.time.getD 0 < params.startTime.getD 0) then false
  else if truthyInt params.endTime && truthyInt story.time &&
      decide (story.time.getD 0 > params.endTime.getD 0) then false
  else if truthyStr params.itemType && decide (story.type ≠ params.itemType) then
    false
  else true

/-- Source `filterStories(stories, params)`: keep the stories passing every
filter, preserving order. -/
def filterStories (stories : List Item) (params : SearchParams) : List Item :=
  stories.filter (filterStory params)

/-- Source `searchStories(params)` (lines 187-200): fetch the top-stories list;
`storyLimit = Math.min(params.limit || 50, 100)`; fetch the first
`storyLimit * 2` candidate IDs via `Promise.all` of `getItem`; keep the
non-null results of type `"story"`; filter; truncate to `storyLimit`. -/
def searchStories (upstreamList : String → FetchOutcome (List Int))
    (upstreamItem : Int → FetchOutcome Item) (now : Nat)
    (c : HackerNewsClient) (params : SearchParams) :
    Except ClientError (List Item) × HackerNewsClient × Nat :=
  match getTopStories upstreamList now c with
  | (.error e, c', n) => (.error e, c', n)
  | (.ok topStories, c', n) =>
    let storyLimit : Nat :=
      min (if truthyNat params.limit then params.limit.getD 50 else 50) 100
    match fetchItemsSeq upstreamItem now c' (topStories.take (storyLimit * 2)) with
    | (.error e, c'', m) => (.error e, c'', n + m)
    | (.ok stories, c'', m) =>
      let validStories := (stories.filterMap (fun o => o)).filter
        (fun story => story.type = some "story")
      (.ok ((filterStories validStories params).take storyLimit), c'', n + m)

/-! ## Comment tree (`getCommentTree` / `loadCommentsRecursively`,
lines 202-211, 300-315) -/

/-- The loop body of `loadCommentsRecursively` (lines 302-314): walk the
kid IDs in order; for each fetched kid of type `"comment"`, append it and
descend into its `kids` via `recur`; a `null` or non-comment kid
contributes nothing and is *not* descended into.  The source fetches the
kids in batches of 5, but the batches are processed sequentially and each
batch's items in order, so the accumulated list is computed kid-by-kid. -/
def loadCommentsLoop (f : Int → Option Item)
    (recur : List Int → List Item) : List Int → List Item
  | [] => []
  | k :: ks =>
    (match f k with
     | some comment =>
        if comment.type = some "comment" then
          comment :: recur (comment.kids.getD [])
        else []
     | none => []) ++ loadCommentsLoop f recur ks

/-- Source `loadCommentsRecursively(kidIds, comments)` (lines 300-315), with
`getItem` abstracted by its item oracle `f` (a fixed upstream and a cache
consistent with it always yield the oracle's answer, and the claims this
feeds concern only the success path).  `fuel` bounds the recursion depth —
the source would diverge on a cyclic `kids` graph — and is consumed only
when descending into a comment's kids. -/
def loadCommentsRecursively (f : Int → Option Item) : Nat → List Int →
    List Item
  | 0, _ => []
  | fuel + 1, kidIds => loadCommentsLoop f (loadCommentsRecursively f fuel) kidIds

/-- Source `getCommentTree(itemId)` (lines 202-211): empty when the item is absent
or has no `kids` field (an empty `kids` array is truthy in JS and yields an
empty walk anyway); otherwise walk the kids. -/
def getCommentTree (f : Int → Option Item) (fuel : Nat) (itemId : Int) :
    List Item :=
  match f itemId with
  | none => []
  | some item =>
    match item.kids with
    | none => []
    | some kids => loadCommentsRecursively f fuel kids

/-! ## Helper lemmas about the association-list map -/

theorem mapFind_mapSet_self {T : Type} (m : List (String × CacheEntry T))
    (k : String) (e : CacheEntry T) : mapFind (mapSet m k e) k = some e := by
  induction m with
  | nil => simp [mapSet, mapFind]
  | cons kv rest ih =>
    obtain ⟨k', e'⟩ := kv
    by_cases h : k' = k
    · simp [mapSet, mapFind, h]
    · simp [mapSet, mapFind, h, ih]

theorem mapFind_mapSet_ne {T : Type} (m : List (String × CacheEntry T))
    (k k' : String) (e : CacheEntry T) (h : k' ≠ k) :
    mapFind (mapSet m k e) k' = mapFind m k' := by
  have h' : k ≠ k' := Ne.symm h
  induction m with
  | nil => simp [mapSet, mapFind, h']
  | cons kv rest ih =>
    obtain ⟨k0, e0⟩ := kv
    by_cases h0 : k0 = k
    · subst h0
      simp [mapSet, mapFind, h']
    · simp only [mapSet, if_neg h0, mapFind]
      by_cases h1 : k0 = k'
      · simp [h1]
      · simp [h1, ih]

theorem mapFind_eq_none_of_not_mem {T : Type}
    (m : List (String × CacheEntry T)) (k : String)
    (h : k ∉ m.map Prod.fst) : mapFind m k = none := by
  induction m with
  | nil => simp [mapFind]
  | cons kv rest ih =>
    obtain ⟨k', e'⟩ := kv
    simp only [List.map_cons, List.mem_cons] at h
    push_neg at h
    have h1 : k' ≠ k := Ne.symm h.1
    simp [mapFind, h1, ih h.2]

theorem mapSet_length_of_mem {T : Type} (m : List (String × CacheEntry T))
    (k : String) (e : CacheEntry T) (h : k ∈ m.map Prod.fst) :
    (mapSet m k e).length = m.length := by
  induction m with
  | nil => simp at h
  | cons kv rest ih =>
    obtain ⟨k', e'⟩ := kv
    by_cases h0 : k' = k
    · simp [mapSet, h0]
    · simp only [List.map_cons, List.mem_cons] at h
      rcases h with h | h
    

      · exact absurd h.symm h0
      · simp [mapSet, h0, ih h]

theorem cleanupList_eq_self {T : Type} (now : Nat)
    (m : List (String × CacheEntry T))
    (h : ∀ kv ∈ m, now ≤ kv.2.expiresAt) :
    SimpleCache.cleanupList now m = m := by
  unfold SimpleCache.cleanupList
  apply List.filter_eq_self.mpr
  intro kv hkv
  simpa using h kv hkv

theorem set_on_empty {T : Type} (ttlSeconds maxSize : Nat) (now : Nat)
    (k : String) (v : T) (httl : 0 < ttlSeconds) (hmax : 0 < maxSize) :
    (SimpleCache.empty T ttlSeconds maxSize).set now k v
      = { entries := [(k, ⟨v, now + ttlSeconds * 1000⟩)],
          ttlMs := ttlSeconds * 1000, maxSize := maxSize } := by
  unfold SimpleCache.set SimpleCache.empty
  have h1 : ¬ (maxSize = 0 ∨ ttlSeconds * 1000 = 0) := by omega
  have h2 : ¬ (([] : List (String × CacheEntry T)).length ≥ maxSize) := by
    simp; omega
  simp only [if_neg h1, if_neg h2, mapSet]

/-- C4: the claim's "absent at exactly `t = ttlSeconds`" is false on the
code: with `ttlSeconds = 1`, a value set at time 0 is still returned by
`get` at `t = 1000` ms (= exactly the TTL), because `get` treats an entry
as expired only when `now > expiresAt`, and `expiresAt = 0 + 1000`. -/
theorem c4_ttl_boundary_counterexample :
    (((SimpleCache.empty String 1 3).set 0 "k1" "v1").get 1000 "k1").1
        = some "v1" ∧
    ¬ ((((SimpleCache.empty String 1 3).set 0 "k1" "v1").get 1000 "k1").1
        = none) := by
  constructor
  · decide
  · decide

/-- C4 (amended): for every cache constructed with `ttlSeconds > 0` and
`maxSize > 0`, a key `k` set at time 0 and not touched since is returned by
`get` at every time `t` (ms) with `0 ≤ t ≤ ttlSeconds * 1000`, and is
absent at every `t > ttlSeconds * 1000`: expiry is strict, so at exactly
`t = ttlSeconds` the value is still returned. -/
theorem c4_ttl_expiry {T : Type} (ttlSeconds maxSize : Nat) (k : String)
    (v : T) (t : Nat) (httl : 0 < ttlSeconds) (hmax : 0 < maxSize) :
    (t ≤ ttlSeconds * 1000 →
      (((SimpleCache.empty T ttlSeconds maxSize).set 0 k v).get t k).1
        = some v) ∧
    (ttlSeconds * 1000 < t →
      (((SimpleCache.empty T ttlSeconds maxSize).set 0 k v).get t k).1
        = none) := by
  rw [set_on_empty ttlSeconds maxSize 0 k v httl hmax]
  unfold SimpleCache.get
  constructor
  · intro ht
    have hlt : ¬ (ttlSeconds * 1000 < t) := by omega
    simp [mapFind, hlt]
  · intro ht
    have hlt : ttlSeconds * 1000 < t := by omega
    simp [mapFind, hlt]

/-- Witness for `c4_ttl_expiry`: `ttlSeconds = 1`, value present at
`t = 500` ms and absent at `t = 1500` ms. -/
theorem c4_ttl_expiry_witness :
    (((SimpleCache.empty String 1 3).set 0 "k1" "v1").get 500 "k1").1
        = some "v1" ∧
    (((SimpleCache.empty String 1 3).set 0 "k1" "v1").get 1500 "k1").1
        = none := by
  constructor
  · exact (c4_ttl_expiry 1 3 "k1" "v1" 500 (by decide) (by decide)).1 (by decide)
  · exact (c4_ttl_expiry 1 3 "k1" "v1" 1500 (by decide) (by decide)).2 (by decide)

/-- The C5 failing input: `maxSize = 1`, `set("", "v1")` then
`set("k2", "v2")` at time 0. -/
def c5FailingCache : SimpleCache String :=
  ((SimpleCache.empty String 60 1).set 0 "" "v1").set 0 "k2" "v2"

/-- C5: the code violates the size bound.  With `maxSize = 1`, after
`set("", "v1")` a second `set("k2", "v2")` leaves 2 stored entries: the
eviction is guarded by `if (firstKey)`, and the oldest key `""` is falsy,
so nothing is evicted before the insert. -/
theorem c5_maxsize_failing_input_eval :
    c5FailingCache.entries.length = 2 ∧
    (c5FailingCache.get 0 "").1 = some "v1" ∧
    (c5FailingCache.get 0 "k2").1 = some "v2" := by
  refine ⟨by decide, by decide, by decide⟩

/-- The C10 counterexample input: `maxSize = 2` holding `""` (oldest) and
`"k"`, then an overwrite of the already-present `"k"` at capacity. -/
def c10OverwriteCache : SimpleCache String :=
  (((SimpleCache.empty String 60 2).set 0 "" "a").set 0 "k" "b").set 0 "k" "c"

/-- C10: the claim fails when the earliest-inserted key is the empty
string.  With `maxSize = 2` holding `""` (oldest) and `"k"`, overwriting
`"k"` at capacity evicts nothing — `if (firstKey)` is falsy for `""` — so
the cache stays at `maxSize` and the oldest entry survives, where the claim
predicts the earliest-inserted key is deleted leaving the cache below
`maxSize`. -/
theorem c10_overwrite_eviction_counterexample :
    c10OverwriteCache.entries.length = 2 ∧
    (c10OverwriteCache.get 0 "").1 = some "a" ∧
    (c10OverwriteCache.get 0 "k").1 = some "c" := by
  refine ⟨by decide, by decide, by decide⟩

/-- C10 (amended): when the cache holds exactly `maxSize` entries, none of
which are expired, and the earliest-inserted key is non-empty (the eviction
guard `if (firstKey)` tests the key for truthiness, so an empty-string
oldest key is never evicted), calling `set(k,v)` for a key `k` that is
already present and different from the oldest key still evicts the
earliest-inserted entry before storing — the capacity check precedes any
check that `k` already exists — deleting a different, unexpired entry and
leaving the cache at `maxSize - 1` entries, strictly below `maxSize`. -/
theorem c10_overwrite_evicts_oldest {T : Type} (c : SimpleCache T)
    (now : Nat) (k0 : String) (e0 : CacheEntry T)
    (rest : List (String × CacheEntry T)) (k : String) (v : T)
    (hent : c.entries = (k0, e0) :: rest)
    (hfull : c.entries.length = c.maxSize)
    (httl : c.ttlMs ≠ 0)
    (hk0 : k0 ≠ "")
    (hfresh : ∀ kv ∈ c.entries, now ≤ kv.2.expiresAt)
    (hnodup : (c.entries.map Prod.fst).Nodup)
    (hk : k ∈ c.entries.map Prod.fst)
    (hkne : k ≠ k0) :
    (c.set now k v).entries.length + 1 = c.maxSize ∧
    mapFind (c.set now k v).entries k0 = none ∧
    mapFind (c.set now k v).entries k = some ⟨v, now + c.ttlMs⟩ ∧
    (c.set now k v).entries.length < c.maxSize := by
  have hmax : c.maxSize ≠ 0 := by
    rw [hent] at hfull
    simp at hfull
    omega
  have hcond : ¬ (c.maxSize = 0 ∨ c.ttlMs = 0) := by
    push_neg
    exact ⟨hmax, httl⟩
  have hclean : SimpleCache.cleanupList now c.entries = c.entries :=
    cleanupList_eq_self now _ hfresh
  have hge : c.entries.length ≥ c.maxSize := le_of_eq hfull.symm
  have hkrest : k ∈ rest.map Prod.fst := by
    rw [hent] at hk
    simp only [List.map_cons, List.mem_cons] at hk
    rcases hk with h | h
    · exact absurd h hkne
    · exact h
  have hk0rest : k0 ∉ rest.map Prod.fst := by
    rw [hent] at hnodup
    simp only [List.map_cons, List.nodup_cons] at hnodup
    exact hnodup.1
  have hclean2 : SimpleCache.cleanupList now ((k0, e0) :: rest)
      = (k0, e0) :: rest := hent ▸ hclean
  have hge2 : c.maxSize ≤ ((k0, e0) :: rest).length := hent ▸ hge
  have hset : (c.set now k v).entries = mapSet rest k ⟨v, now + c.ttlMs⟩ := by
    unfold SimpleCache.set
    rw [if_neg hcond]
    simp only [hent, hclean2, ge_iff_le, hge2, if_true, List.head?_cons]
    simp [hk0, mapDelete]
  rw [hset]
  have hlen : (mapSet rest k (⟨v, now + c.ttlMs⟩ : CacheEntry T)).length
      = rest.length := mapSet_length_of_mem rest k _ hkrest
  have hlen2 : rest.length + 1 = c.maxSize := by
    rw [hent] at hfull
    simpa using hfull
  refine ⟨by omega, ?_, mapFind_mapSet_self rest k _, by omega⟩
  rw [mapFind_mapSet_ne rest k k0 _ hkne.symm]
  exact mapFind_eq_none_of_not_mem rest k0 hk0rest

/-- Witness for `c10_overwrite_evicts_oldest`: a cache at capacity 2
holding `"a"` (oldest) and `"k"`, overwritten at `"k"`. -/
theorem c10_overwrite_evicts_oldest_witness :
    ((((SimpleCache.empty String 60 2).set 0 "a" "x").set 0 "k" "y").set
        0 "k" "z").entries.length + 1 = 2 ∧
    mapFind ((((SimpleCache.empty String 60 2).set 0 "a" "x").set 0 "k"
        "y").set 0 "k" "z").entries "a" = none := by
  have h := c10_overwrite_evicts_oldest
    (((SimpleCache.empty String 60 2).set 0 "a" "x").set 0 "k" "y") 0
    "a" ⟨"x", 60000⟩ [("k", ⟨"y", 60000⟩)] "k" "z"
    (by decide) (by decide) (by decide) (by decide)
    (by decide) (by decide) (by decide) (by decide)
  exact ⟨h.1, h.2.1⟩

/-! ## Helper lemmas about `SimpleCache.get` / `SimpleCache.set` -/

theorem get_snd_ttlMs {T : Type} (c : SimpleCache T) (now : Nat)
    (k : String) : (c.get now k).2.ttlMs = c.ttlMs := by
  unfold SimpleCache.get
  rcases h : mapFind c.entries k with _ | e
  · simp
  · simp only []
    split <;> rfl

theorem get_snd_maxSize {T : Type} (c : SimpleCache T) (now : Nat)
    (k : String) : (c.get now k).2.maxSize = c.maxSize := by
  unfold SimpleCache.get
  rcases h : mapFind c.entries k with _ | e
  · simp
  · simp only []
    split <;> rfl

theorem get_after_set {T : Type} (cache : SimpleCache T) (now now' : Nat)
    (k : String) (v : T) (hmax : 0 < cache.maxSize) (httl : 0 < cache.ttlMs)
    (hw : now' ≤ now + cache.ttlMs) :
    ((cache.set now k v).get now' k).1 = some v := by
  have hcond : ¬ (cache.maxSize = 0 ∨ cache.ttlMs = 0) := by
    push_neg
    omega
  unfold SimpleCache.set
  rw [if_neg hcond]
  unfold SimpleCache.get
  simp only [mapFind_mapSet_self]
  rw [if_neg (by omega : ¬ now' > now + cache.ttlMs)]

theorem set_noop_of_maxSize_zero {T : Type} (cache : SimpleCache T)
    (now : Nat) (k : String) (v : T) (h : cache.maxSize = 0) :
    cache.set now k v = cache := by
  unfold SimpleCache.set
  rw [if_pos (Or.inl h)]

/-- C7: for an upstream that answers `id` with a non-null item, a first
`getItem(id)` on a client whose item cache misses the key issues exactly
one network request, returns the item, and stores it under `item:{id}`;
a second `getItem(id)` at any time within the TTL returns the same item
with zero network requests.  And a `null` upstream body is returned but
never cached: the item cache after the call is exactly the cache left by
the lookup, with no entry inserted. -/
theorem c7_getItem_caching (up up' : Int → FetchOutcome Item)
    (now now' : Nat) (c : HackerNewsClient) (id : Int) (item : Item)
    (hup : up id = FetchOutcome.ok (some item))
    (hup' : up' id = FetchOutcome.ok none)
    (hmiss : (c.itemCache.get now ("item:" ++ toString id)).1 = none)
    (hmax : 0 < c.itemCache.maxSize)
    (httl : 0 < c.itemCache.ttlMs)
    (hwithin : now' ≤ now + c.itemCache.ttlMs) :
    (getItem up now c id).1 = .ok (some item) ∧
    (getItem up now c id).2.2 = 1 ∧
    (getItem up now' (getItem up now c id).2.1 id).1 = .ok (some item) ∧
    (getItem up now' (getItem up now c id).2.1 id).2.2 = 0 ∧
    (getItem up' now c id).1 = .ok none ∧
    (getItem up' now c id).2.1.itemCache
      = (c.itemCache.get now ("item:" ++ toString id)).2 := by
  have h1 : getItem up now c id
      = (.ok (some item),
         { c with itemCache :=
             (((c.itemCache.get now ("item:" ++ toString id)).2).set now
               ("item:" ++ toString id) item) }, 1) := by
    unfold getItem
    simp only [hmiss, hup, fetchWithTimeout]
  have hcachehit :
      ((((c.itemCache.get now ("item:" ++ toString id)).2).set now
          ("item:" ++ toString id) item).get now'
          ("item:" ++ toString id)).1 = some item := by
    apply get_after_set
    · rw [get_snd_maxSize]
      exact hmax
    · rw [get_snd_ttlMs]
      exact httl
    · rw [get_snd_ttlMs]
      exact hwithin
  have h2 : getItem up now' (getItem up now c id).2.1 id
      = (.ok (some item),
         { c with itemCache :=
             (((((c.itemCache.get now ("item:" ++ toString id)).2).set now
                 ("item:" ++ toString id) item).get now'
                 ("item:" ++ toString id)).2) }, 0) := by
    rw [h1]
    unfold getItem
    simp only [hcachehit]
  have h3 : getItem up' now c id
      = (.ok none,
         { c with itemCache :=
             ((c.itemCache.get now ("item:" ++ toString id)).2) }, 1) := by
    unfold getItem
    simp only [hmiss, hup', fetchWithTimeout]
  refine ⟨by rw [h1], by rw [h1], by rw [h2], by rw [h2], by rw [h3],
    by rw [h3]⟩

/-- Witness for `c7_getItem_caching`: a fresh default client, an upstream
returning a concrete story for id 123 and one returning `null`. -/
theorem c7_getItem_caching_witness :
    (getItem (fun _ => FetchOutcome.ok
        (some { id := 123, type := some "story" })) 0
      (mkClient { cacheOptions := none }) 123).1
      = .ok (some { id := 123, type := some "story" }) ∧
    (getItem (fun _ => (FetchOutcome.ok none : FetchOutcome Item)) 0
      (mkClient { cacheOptions := none }) 123).1 = .ok none := by
  have h := c7_getItem_caching
    (fun _ => FetchOutcome.ok (some { id := 123, type := some "story" }))
    (fun _ => FetchOutcome.ok none) 0 100
    (mkClient { cacheOptions := none }) 123
    { id := 123, type := some "story" }
    rfl rfl (by decide) (by decide) (by decide) (by decide)
  exact ⟨h.1, h.2.2.2.2.1⟩

/-- C8: the client constructor sizes the lists cache at
`Math.floor(maxSize / 10)`, so for every configured `maxSize < 10` the
lists cache has capacity 0: `set` is then a no-op, no story-ID list is
ever retained, and every list fetch after the first still issues a network
request. -/
theorem c8_listCache_tenth :
    (∀ options : ClientOptions,
      (mkClient options).listCache.maxSize
        = (options.cacheOptions.getD
            { ttlSeconds := 300, maxSize := 1000 }).maxSize / 10) ∧
    (∀ (ttlSeconds maxSize : Nat)
      (upstreamList : String → FetchOutcome (List Int))
      (now now' : Nat) (endpoint : String) (ids : List Int),
      maxSize < 10 →
      upstreamList endpoint = FetchOutcome.ok (some ids) →
      (getStoryList upstreamList now
          (mkClient { cacheOptions := some ⟨ttlSeconds, maxSize⟩ })
          endpoint).1 = .ok ids ∧
      (getStoryList upstreamList now
          (mkClient { cacheOptions := some ⟨ttlSeconds, maxSize⟩ })
          endpoint).2.2 = 1 ∧
      (getStoryList upstreamList now'
          (getStoryList upstreamList now
            (mkClient { cacheOptions := some ⟨ttlSeconds, maxSize⟩ })
            endpoint).2.1 endpoint).1 = .ok ids ∧
      (getStoryList upstreamList now'
          (getStoryList upstreamList now
            (mkClient { cacheOptions := some ⟨ttlSeconds, maxSize⟩ })
            endpoint).2.1 endpoint).2.2 = 1) := by
  constructor
  · intro options
    rfl
  · intro ttlSeconds maxSize upstreamList now now' endpoint ids hM hup
    have hzero : maxSize / 10 = 0 := Nat.div_eq_of_lt hM
    have hone : ∀ t : Nat, getStoryList upstreamList t
        (mkClient { cacheOptions := some ⟨ttlSeconds, maxSize⟩ }) endpoint
        = (.ok ids, mkClient { cacheOptions := some ⟨ttlSeconds, maxSize⟩ },
           1) := by
      intro t
      have hmax0 :
          (mkClient { cacheOptions := some ⟨ttlSeconds, maxSize⟩ }).listCache.maxSize
            = 0 := by
        unfold mkClient
        simpa using hzero
      have hget :
          (mkClient { cacheOptions := some ⟨ttlSeconds, maxSize⟩ }).listCache.get
              t ("list:" ++ endpoint)
            = (none,
               (mkClient { cacheOptions := some ⟨ttlSeconds, maxSize⟩ }).listCache) := by
        unfold mkClient SimpleCache.get SimpleCache.empty
        simp [mapFind]
      unfold getStoryList
      simp only [hget, hup]
      rw [set_noop_of_maxSize_zero _ _ _ _ hmax0]
    refine ⟨by rw [hone now], by rw [hone now], ?_, ?_⟩
    · rw [hone now]
      simp only []
      rw [hone now']
    · rw [hone now]
      simp only []
      rw [hone now']

/-- Witness for `c8_listCache_tenth`: `maxSize = 5` gives a lists cache of
capacity 0, and two consecutive `getStoryList("topstories")` calls each
issue one network request. -/
theorem c8_listCache_tenth_witness :
    (mkClient { cacheOptions := some ⟨60, 5⟩ }).listCache.maxSize = 0 ∧
    (getStoryList (fun _ => FetchOutcome.ok (some [7, 8])) 0
      (mkClient { cacheOptions := some ⟨60, 5⟩ }) "topstories").2.2 = 1 ∧
    (getStoryList (fun _ => FetchOutcome.ok (some [7, 8])) 0
      (getStoryList (fun _ => FetchOutcome.ok (some [7, 8])) 0
        (mkClient { cacheOptions := some ⟨60, 5⟩ }) "topstories").2.1
      "topstories").2.2 = 1 := by
  have hb := c8_listCache_tenth.2 60 5 (fun _ => FetchOutcome.ok (some [7, 8]))
    0 0 "topstories" [7, 8] (by decide) rfl
  have ha := c8_listCache_tenth.1 { cacheOptions := some ⟨60, 5⟩ }
  refine ⟨?_, hb.2.1, hb.2.2.2⟩
  rw [ha]
  decide

/-- Upstream oracle answering every item request with HTTP 500. -/
def upstreamC2 : Int → FetchOutcome Item :=
  fun _ => FetchOutcome.httpError 500 "Internal Server Error"

/-- C2: the claim is false — the error `getItem` raises for a non-2xx
response has `statusCode = none`, not the response's status: `getItem`
catches the inner `HackerNewsClientError` thrown by `fetchWithTimeout`
(which does carry `statusCode = 500`) and rethrows a fresh error built
from the message alone. -/
theorem c2_statusCode_dropped_counterexample :
    (getItem upstreamC2 0 (mkClient { cacheOptions := none }) 123).1
      = Except.error
          { message := "Failed to fetch item 123: HTTP 500: Internal Server Error",
            statusCode := none } ∧
    (getItem upstreamC2 0 (mkClient { cacheOptions := none }) 123).1
      ≠ Except.error
          { message := "Failed to fetch item 123: HTTP 500: Internal Server Error",
            statusCode := some 500 } := by
  have h1 : (getItem upstreamC2 0 (mkClient { cacheOptions := none }) 123).1
      = Except.error
          { message := "Failed to fetch item 123: HTTP 500: Internal Server Error",
            statusCode := none } := by
    have h0 : (getItem upstreamC2 0 (mkClient { cacheOptions := none }) 123).1
        = Except.error
            { message := ("Failed to fetch item " ++ toString (123 : Int)
                ++ ": " ++ ("HTTP " ++ toString 500 ++ ": "
                  ++ "Internal Server Error")),
              statusCode := none } := rfl
    rw [h0]
    simp only [Except.error.injEq, ClientError.mk.injEq]
    exact ⟨by decide, by trivial⟩
  refine ⟨h1, ?_⟩
  rw [h1]
  intro h2
  simp at h2

/-- C2 (amended): a non-2xx HTTP response makes every fetching operation
raise a `HackerNewsClientError` whose *message* embeds the numeric status
(as `HTTP {status}: {statusText}`) but whose `statusCode` field is `none`:
the status code is carried only by the intermediate error thrown inside
`fetchWithTimeout`, which each public operation catches and rewraps into a
new error without the field. -/
theorem c2_httpError_statusCode :
    (∀ (status : Nat) (statusText : String),
      fetchWithTimeout (FetchOutcome.httpError status statusText
          : FetchOutcome Item)
        = .error { message := ("HTTP " ++ toString status ++ ": " ++ statusText),
                   statusCode := some status }) ∧
    (∀ (up : Int → FetchOutcome Item) (now : Nat) (c : HackerNewsClient)
        (id : Int) (status : Nat) (statusText : String),
      up id = FetchOutcome.httpError status statusText →
      (c.itemCache.get now ("item:" ++ toString id)).1 = none →
      (getItem up now c id).1
        = .error
            { message := ("Failed to fetch item " ++ toString id ++ ": "
                ++ ("HTTP " ++ toString status ++ ": " ++ statusText)),
              statusCode := none }) ∧
    (∀ (up : String → FetchOutcome HNUser) (now : Nat) (c : HackerNewsClient)
        (id : String) (status : Nat) (statusText : String),
      up id = FetchOutcome.httpError status statusText →
      (c.userCache.get now ("user:" ++ id)).1 = none →
      (getUser up now c id).1
        = .error
            { message := ("Failed to fetch user " ++ id ++ ": "
                ++ ("HTTP " ++ toString status ++ ": " ++ statusText)),
              statusCode := none }) ∧
    (∀ (up : String → FetchOutcome (List Int)) (now : Nat)
        (c : HackerNewsClient) (endpoint : String) (status : Nat)
        (statusText : String),
      up endpoint = FetchOutcome.httpError status statusText →
      (c.listCache.get now ("list:" ++ endpoint)).1 = none →
      (getStoryList up now c endpoint).1
        = .error
            { message := ("Failed to fetch " ++ endpoint ++ ": HTTP "
                ++ toString status ++ ": " ++ statusText),
              statusCode := none }) ∧
    (∀ (status : Nat) (statusText : String),
      (getMaxItemId (FetchOutcome.httpError status statusText)).1
        = .error
            { message := ("Failed to fetch max item ID: "
                ++ ("HTTP " ++ toString status ++ ": " ++ statusText)),
              statusCode := none }) ∧
    (∀ (status : Nat) (statusText : String),
      (getUpdates (FetchOutcome.httpError status statusText)).1
        = .error
            { message := ("Failed to fetch updates: "
                ++ ("HTTP " ++ toString status ++ ": " ++ statusText)),
              statusCode := none }) := by
  refine ⟨fun status statusText => rfl, ?_, ?_, ?_,
    fun status statusText => rfl, fun status statusText => rfl⟩
  · intro up now c id status statusText hup hmiss
    unfold getItem
    simp only [hmiss, hup, fetchWithTimeout]
  · intro up now c id status statusText hup hmiss
    unfold getUser
    simp only [hmiss, hup, fetchWithTimeout]
  · intro up now c endpoint status statusText hup hmiss
    unfold getStoryList
    simp only [hmiss, hup]

/-- Witness for `c2_httpError_statusCode` at status 503 on a fresh
default client. -/
theorem c2_httpError_statusCode_witness :
    fetchWithTimeout (FetchOutcome.httpError 503 "Service Unavailable"
        : FetchOutcome Item)
      = .error { message := "HTTP 503: Service Unavailable",
                 statusCode := some 503 } ∧
    (getItem (fun _ => FetchOutcome.httpError 503 "Service Unavailable") 0
        (mkClient { cacheOptions := none }) 9).1
      = .error { message := "Failed to fetch item 9: HTTP 503: Service Unavailable",
                 statusCode := none } ∧
    (getStoryList (fun _ => FetchOutcome.httpError 503 "Service Unavailable")
        0 (mkClient { cacheOptions := none }) "topstories").1
      = .error { message := "Failed to fetch topstories: HTTP 503: Service Unavailable",
                 statusCode := none } := by
  have h1 := c2_httpError_statusCode.1 503 "Service Unavailable"
  have h2 := c2_httpError_statusCode.2.1
    (fun _ => FetchOutcome.httpError 503 "Service Unavailable") 0
    (mkClient { cacheOptions := none }) 9 503 "Service Unavailable" rfl rfl
  have h4 := c2_httpError_statusCode.2.2.2.1
    (fun _ => FetchOutcome.httpError 503 "Service Unavailable") 0
    (mkClient { cacheOptions := none }) "topstories" 503 "Service Unavailable"
    rfl rfl
  refine ⟨?_, ?_, ?_⟩
  · rw [h1]
    simp only [Except.error.injEq, ClientError.mk.injEq]
    exact ⟨by decide, by trivial⟩
  · rw [h2]
    simp only [Except.error.injEq, ClientError.mk.injEq]
    exact ⟨by decide, by trivial⟩
  · rw [h4]
    simp only [Except.error.injEq, ClientError.mk.injEq]
    exact ⟨by decide, by trivial⟩

/-- C9: composite lookups never raise for a clean not-found — whenever the
underlying `getItem` resolves to `null`, or to an item whose type is not
`"story"`, `getStoryWithMetadata` returns the `null` value (not an error);
and whenever `getUser` resolves to `null`, `getUserWithStats` returns the
`null` value. -/
theorem c9_composite_not_found :
    (∀ (up : Int → FetchOutcome Item) (extractDomain : String → Option String)
        (now : Nat) (c : HackerNewsClient) (id : Int),
      (getItem up now c id).1 = .ok none →
      (getStoryWithMetadata up extractDomain now c id).1 = .ok none) ∧
    (∀ (up : Int → FetchOutcome Item) (extractDomain : String → Option String)
        (now : Nat) (c : HackerNewsClient) (id : Int) (item : Item),
      (getItem up now c id).1 = .ok (some item) →
      item.type ≠ some "story" →
      (getStoryWithMetadata up extractDomain now c id).1 = .ok none) ∧
    (∀ (upU : String → FetchOutcome HNUser) (upI : Int → FetchOutcome Item)
        (now : Nat) (c : HackerNewsClient) (id : String),
      (getUser upU now c id).1 = .ok none →
      (getUserWithStats upU upI now c id).1 = .ok none) := by
  refine ⟨?_, ?_, ?_⟩
  · intro up extractDomain now c id h
    unfold getStoryWithMetadata
    rcases hg : getItem up now c id with ⟨r, c', n⟩
    rw [hg] at h
    simp only at h
    subst h
    simp
  · intro up extractDomain now c id item h htype
    unfold getStoryWithMetadata
    rcases hg : getItem up now c id with ⟨r, c', n⟩
    rw [hg] at h
    simp only at h
    subst h
    simp [htype]
  · intro upU upI now c id h
    unfold getUserWithStats
    rcases hg : getUser upU now c id with ⟨r, c', n⟩
    rw [hg] at h
    simp only at h
    subst h
    simp

/-- Witness for `c9_composite_not_found`: a `null`-answering upstream, a
comment-typed item, and a `null`-answering user upstream. -/
theorem c9_composite_not_found_witness :
    (getStoryWithMetadata (fun _ => FetchOutcome.ok none) (fun _ => none) 0
      (mkClient { cacheOptions := none }) 77).1 = .ok none ∧
    (getStoryWithMetadata
      (fun _ => FetchOutcome.ok (some { id := 77, type := some "comment" }))
      (fun _ => none) 0 (mkClient { cacheOptions := none }) 77).1
        = .ok none ∧
    (getUserWithStats (fun _ => FetchOutcome.ok none)
      (fun _ => FetchOutcome.ok none) 0
      (mkClient { cacheOptions := none }) "ghost").1 = .ok none := by
  refine ⟨?_, ?_, ?_⟩
  · exact c9_composite_not_found.1 (fun _ => FetchOutcome.ok none)
      (fun _ => none) 0 (mkClient { cacheOptions := none }) 77 rfl
  · exact c9_composite_not_found.2.1
      (fun _ => FetchOutcome.ok (some { id := 77, type := some "comment" }))
      (fun _ => none) 0 (mkClient { cacheOptions := none }) 77
      { id := 77, type := some "comment" } rfl (by decide)
  · exact c9_composite_not_found.2.2 (fun _ => FetchOutcome.ok none)
      (fun _ => FetchOutcome.ok none) 0 (mkClient { cacheOptions := none })
      "ghost" rfl

/-- The item returned for id 123 in the C1 failing input. -/
def item123C1 : Item :=
  { id := 123, type := some "story", title := some "Story 1" }

/-- C1 failing input upstream: id 123 resolves, id 456 rejects with a
network error (as in the repository's own "should handle partial failures"
test), everything else resolves to `null`. -/
def upstreamItemC1 : Int → FetchOutcome Item :=
  fun id =>
    if id = 123 then FetchOutcome.ok (some item123C1)
    else if id = 456 then FetchOutcome.networkError "Network error"
    else FetchOutcome.ok none

/-- The C1 user whose submissions are `[123, 456]`. -/
def userC1 : HNUser :=
  { id := "u", created := 0, karma := 1, submitted := some [123, 456] }

/-- Upstream answering every user request with `userC1`. -/
def upstreamUserC1 : String → FetchOutcome HNUser :=
  fun _ => FetchOutcome.ok (some userC1)

/-- C1: at the failing input `ids = [123, 456]` with the fetch for 456
rejecting, `getMultipleItems` does **not** return `[item123, null]` — it
rejects with the wrapped error, because neither `getMultipleItems` nor
`getItem` catches an individual failure inside
`Promise.all(batch.map(id => this.getItem(id)))`; and `getUserWithStats`
on a user whose submissions are `[123, 456]` rejects the same way. -/
theorem c1_getMultipleItems_failing_input_eval :
    (getMultipleItems upstreamItemC1 0 (mkClient { cacheOptions := none })
        [123, 456]).1
      = Except.error
          { message := "Failed to fetch item 456: Network error",
            statusCode := none } ∧
    (getMultipleItems upstreamItemC1 0 (mkClient { cacheOptions := none })
        [123, 456]).1
      ≠ Except.ok [some item123C1, none] ∧
    (getUserWithStats upstreamUserC1 upstreamItemC1 0
        (mkClient { cacheOptions := none }) "u").1
      = Except.error
          { message := "Failed to fetch item 456: Network error",
            statusCode := none } := by
  have h1 : (getMultipleItems upstreamItemC1 0
        (mkClient { cacheOptions := none }) [123, 456]).1
      = Except.error
          { message := ("Failed to fetch item " ++ toString (456 : Int)
              ++ ": " ++ "Network error"),
            statusCode := none } := rfl
  have h2 : (getUserWithStats upstreamUserC1 upstreamItemC1 0
        (mkClient { cacheOptions := none }) "u").1
      = Except.error
          { message := ("Failed to fetch item " ++ toString (456 : Int)
              ++ ": " ++ "Network error"),
            statusCode := none } := rfl
  refine ⟨?_, ?_, ?_⟩
  · rw [h1]
    simp only [Except.error.injEq, ClientError.mk.injEq]
    exact ⟨by decide, by trivial⟩
  · rw [h1]
    intro hcontra
    simp at hcontra
  · rw [h2]
    simp only [Except.error.injEq, ClientError.mk.injEq]
    exact ⟨by decide, by trivial⟩

/-- C3 oracle: item 1 is a story with kids `[2]`; item 2 is a fetched
non-comment (a job) whose own kids are `[3]`; item 3 is a comment. -/
def fC3 : Int → Option Item :=
  fun id =>
    if id = 1 then some { id := 1, type := some "story", kids := some [2] }
    else if id = 2 then some { id := 2, type := some "job", kids := some [3] }
    else if id = 3 then some { id := 3, type := some "comment" }
    else none

/-- C3: the claim is false — the type check prunes the traversal below a
non-comment node.  Item 2 is fetched, is not a comment, and has a comment
kid 3; the claim says 3 is still reached (only 2 is excluded), but
`getCommentTree` returns the empty list: the recursion into `kids` happens
only inside the `type === "comment"` branch. -/
theorem c3_noncomment_subtree_counterexample :
    getCommentTree fC3 10 1 = [] ∧
    fC3 2 = some { id := 2, type := some "job", kids := some [3] } ∧
    fC3 3 = some { id := 3, type := some "comment" } ∧
    ({ id := 3, type := some "comment" } : Item) ∉ getCommentTree fC3 10 1 := by
  refine ⟨by decide, rfl, rfl, by decide⟩

/-- C3 (amended): in the comment-tree walk, a fetched kid whose type is
not `"comment"` is excluded from the result *and its own kids are not
traversed* — the walk continues exactly as if the kid were absent; a
comment-typed kid is appended and its kids are walked one level deeper. -/
theorem c3_noncomment_kids_pruned :
    (∀ (f : Int → Option Item) (fuel : Nat) (k : Int) (it : Item)
        (rest : List Int),
      f k = some it → it.type ≠ some "comment" →
      loadCommentsRecursively f (fuel + 1) (k :: rest)
        = loadCommentsRecursively f (fuel + 1) rest) ∧
    (∀ (f : Int → Option Item) (fuel : Nat) (k : Int) (rest : List Int),
      f k = none →
      loadCommentsRecursively f (fuel + 1) (k :: rest)
        = loadCommentsRecursively f (fuel + 1) rest) ∧
    (∀ (f : Int → Option Item) (fuel : Nat) (k : Int) (it : Item)
        (rest : List Int),
      f k = some it → it.type = some "comment" →
      loadCommentsRecursively f (fuel + 1) (k :: rest)
        = it :: (loadCommentsRecursively f fuel (it.kids.getD [])
            ++ loadCommentsRecursively f (fuel + 1) rest)) := by
  refine ⟨?_, ?_, ?_⟩
  · intro f fuel k it rest hf htype
    simp [loadCommentsRecursively, loadCommentsLoop, hf, htype]
  · intro f fuel k rest hf
    simp [loadCommentsRecursively, loadCommentsLoop, hf]
  · intro f fuel k it rest hf htype
    simp [loadCommentsRecursively, loadCommentsLoop, hf, htype]

/-- Witness for `c3_noncomment_kids_pruned` on the `fC3` oracle: kid 2 is
a fetched non-comment, so walking `[2]` yields the same as walking `[]`,
and walking the comment 3 prepends it. -/
theorem c3_noncomment_kids_pruned_witness :
    loadCommentsRecursively fC3 5 [2] = loadCommentsRecursively fC3 5 [] ∧
    loadCommentsRecursively fC3 5 [3]
      = ({ id := 3, type := some "comment" } : Item)
          :: (loadCommentsRecursively fC3 4 [] ++ loadCommentsRecursively fC3 5 []) := by
  constructor
  · exact c3_noncomment_kids_pruned.1 fC3 4 2
      { id := 2, type := some "job", kids := some [3] } [] rfl (by decide)
  · exact c3_noncomment_kids_pruned.2.2 fC3 4 3
      { id := 3, type := some "comment" } [] rfl rfl

/-! ## Lemmas about the search filter and fetch counts -/

theorem filterStory_spec (params : SearchParams) (story : Item)
    (h : filterStory params story = true) :
    (truthyStr params.query = true → truthyStr story.title = true →
      containsSub (toLowerList (story.title.getD ""))
        (toLowerList (params.query.getD "")) = true) ∧
    (truthyStr params.author = true → story.by_ = params.author) ∧
    (truthyInt params.minScore = true →
      params.minScore.getD 0 ≤ story.score.getD 0) ∧
    (truthyInt params.startTime = true → truthyInt story.time = true →
      params.startTime.getD 0 ≤ story.time.getD 0) ∧
    (truthyInt params.endTime = true → truthyInt story.time = true →
      story.time.getD 0 ≤ params.endTime.getD 0) ∧
    (truthyStr params.itemType = true → story.type = params.itemType) := by
  unfold filterStory at h
  split_ifs at h with h1 h2 h3 h4 h5 h6
  refine ⟨?_, ?_, ?_, ?_, ?_, ?_⟩
  · intro hq ht
    by_contra hc
    rw [Bool.not_eq_true] at hc
    exact h1 (by simp [hq, ht, hc])
  · intro ha
    by_contra hc
    exact h2 (by simp [ha, hc])
  · intro hm
    by_contra hc
    rw [not_le] at hc
    exact h3 (by simp [hm, hc])
  · intro hs ht
    by_contra hc
    rw [not_le] at hc
    exact h4 (by simp [hs, ht, hc])
  · intro he ht
    by_contra hc
    rw [not_le] at hc
    exact h5 (by simp [he, ht, hc])
  · intro hi
    by_contra hc
    exact h6 (by simp [hi, hc])

theorem getItem_count_le_one (up : Int → FetchOutcome Item) (now : Nat)
    (c : HackerNewsClient) (id : Int) : (getItem up now c id).2.2 ≤ 1 := by
  unfold getItem
  cases h : (c.itemCache.get now ("item:" ++ toString id)).1 with
  | none =>
    simp only [h]
    split <;> simp
  | some _ => simp [h]

theorem getStoryList_count_le_one (up : String → FetchOutcome (List Int))
    (now : Nat) (c : HackerNewsClient) (endpoint : String) :
    (getStoryList up now c endpoint).2.2 ≤ 1 := by
  unfold getStoryList
  cases h : (c.listCache.get now ("list:" ++ endpoint)).1 with
  | none =>
    simp only [h]
    split <;> simp
  | some _ => simp [h]

theorem fetchItemsSeq_count_le (up : Int → FetchOutcome Item) (now : Nat) :
    ∀ (ids : List Int) (c : HackerNewsClient),
      (fetchItemsSeq up now c ids).2.2 ≤ ids.length := by
  intro ids
  induction ids with
  | nil =>
    intro c
    simp [fetchItemsSeq]
  | cons id rest ih =>
    intro c
    unfold fetchItemsSeq
    rcases hg : getItem up now c id with ⟨r, c', n⟩
    have hn : n ≤ 1 := by
      have h0 := getItem_count_le_one up now c id
      rw [hg] at h0
      exact h0
    cases r with
    | error e =>
      simp only [hg]
      simp
      omega
    | ok item =>
      rcases hf : fetchItemsSeq up now c' rest with ⟨r2, c'', m⟩
      have hm : m ≤ rest.length := by
        have h0 := ih c'
        rw [hf] at h0
        exact h0
      cases r2 with
      | error e =>
        simp only [hg, hf]
        simp
        omega
      | ok items =>
        simp only [hg, hf]
        simp
        omega

deriving instance DecidableEq for Except

/-- A story with no `title` field (top story for the C6 counterexample). -/
def storyNoTitleC6 : Item := { id := 1, type := some "story" }

/-- Top-stories oracle for the C6 counterexample. -/
def upstreamListC6 : String → FetchOutcome (List Int) :=
  fun _ => FetchOutcome.ok (some [1])

/-- Item oracle for the C6 counterexample. -/
def upstreamItemC6 : Int → FetchOutcome Item :=
  fun _ => FetchOutcome.ok (some storyNoTitleC6)

/-- C6: the claim is false for the `query` filter — a story with no
`title` passes the query filter (the guard requires `story.title` to be
truthy before comparing), so with `query = "AI"` the returned list
contains a story whose title does not contain "AI" (it has no title at
all). -/
theorem c6_query_filter_counterexample :
    (searchStories upstreamListC6 upstreamItemC6 0
        (mkClient { cacheOptions := none }) { query := some "AI" }).1
      = .ok [storyNoTitleC6] ∧
    storyNoTitleC6.title = none ∧
    truthyStr (some "AI") = true := by
  refine ⟨by decide, rfl, by decide⟩

/-- C6 (amended): `searchStories` draws its candidates from the first
`2 × min(limit || 50, 100)` top-story IDs (issuing at most
`1 + 2 × min(limit || 50, 100)` network requests), truncates the result to
`min(limit || 50, 100)` entries, and every returned story has
`type = "story"` and passes every *provided* filter in the guarded sense
of the code: the title-substring condition applies only to stories that
have a truthy title, the time-window conditions only to stories with a
truthy time, and a filter field that is `undefined`, `0` or `""` is
skipped; the author, minScore and itemType conditions hold as claimed. -/
theorem c6_search_filter_composition
    (upstreamList : String → FetchOutcome (List Int))
    (upstreamItem : Int → FetchOutcome Item) (now : Nat)
    (c : HackerNewsClient) (params : SearchParams) (res : List Item)
    (h : (searchStories upstreamList upstreamItem now c params).1 = .ok res) :
    res.length ≤ min (if truthyNat params.limit then params.limit.getD 50
        else 50) 100 ∧
    (searchStories upstreamList upstreamItem now c params).2.2
      ≤ 1 + 2 * min (if truthyNat params.limit then params.limit.getD 50
        else 50) 100 ∧
    ∀ story ∈ res,
      story.type = some "story" ∧
      (truthyStr params.query = true → truthyStr story.title = true →
        containsSub (toLowerList (story.title.getD ""))
          (toLowerList (params.query.getD "")) = true) ∧
      (truthyStr params.author = true → story.by_ = params.author) ∧
      (truthyInt params.minScore = true →
        params.minScore.getD 0 ≤ story.score.getD 0) ∧
      (truthyInt params.startTime = true → truthyInt story.time = true →
        params.startTime.getD 0 ≤ story.time.getD 0) ∧
      (truthyInt params.endTime = true → truthyInt story.time = true →
        story.time.getD 0 ≤ params.endTime.getD 0) ∧
      (truthyStr params.itemType = true → story.type = params.itemType) := by
  unfold searchStories getTopStories at h ⊢
  rcases h1 : getStoryList upstreamList now c "topstories" with ⟨r1, c1, n1⟩
  rw [h1] at h
  have hn1 : n1 ≤ 1 := by
    have h0 := getStoryList_count_le_one upstreamList now c "topstories"
    rw [h1] at h0
    exact h0
  cases r1 with
  | error e => simp at h
  | ok topStories =>
    simp only [] at h
    rcases h2 : fetchItemsSeq upstreamItem now c1
        (topStories.take
          ((min (if truthyNat params.limit then params.limit.getD 50 else 50)
            100) * 2)) with ⟨r2, c2, n2⟩
    rw [h2] at h
    have hn2 : n2 ≤ (min (if truthyNat params.limit then params.limit.getD 50
        else 50) 100) * 2 := by
      have h0 := fetchItemsSeq_count_le upstreamItem now
        (topStories.take
          ((min (if truthyNat params.limit then params.limit.getD 50 else 50)
            100) * 2)) c1
      rw [h2] at h0
      exact le_trans h0 (List.length_take_le _ _)
    cases r2 with
    | error e => simp at h
    | ok stories =>
      simp only [Except.ok.injEq] at h
      subst h
      refine ⟨?_, ?_, ?_⟩
      · exact List.length_take_le _ _
      · simp only [h2]
        omega
      · intro story hmem
        have hmem' := List.mem_of_mem_take hmem
        rw [filterStories] at hmem'
        rw [List.mem_filter] at hmem'
        obtain ⟨hvalid, hpass⟩ := hmem'
        rw [List.mem_filter] at hvalid
        obtain ⟨_, htype⟩ := hvalid
        have htype' : story.type = some "story" := by
          simpa using htype
        have hspec := filterStory_spec params story hpass
        exact ⟨htype', hspec.1, hspec.2.1, hspec.2.2.1, hspec.2.2.2.1,
          hspec.2.2.2.2.1, hspec.2.2.2.2.2⟩

/-- High-score story whose title contains "AI" (C6 witness pool). -/
def storyAIC6 : Item :=
  { id := 1, type := some "story", title := some "AI rocks",
    score := some 150 }

/-- Low-score story (C6 witness pool). -/
def storyBoringC6 : Item :=
  { id := 2, type := some "story", title := some "Boring",
    score := some 50 }

/-- Top-stories oracle for the C6 witness. -/
def upstreamListC6W : String → FetchOutcome (List Int) :=
  fun _ => FetchOutcome.ok (some [1, 2])

/-- Item oracle for the C6 witness. -/
def upstreamItemC6W : Int → FetchOutcome Item :=
  fun id => if id = 1 then FetchOutcome.ok (some storyAIC6)
    else FetchOutcome.ok (some storyBoringC6)

/-- Search parameters for the C6 witness. -/
def paramsC6W : SearchParams := { query := some "ai", minScore := some 100 }

/-- Witness for `c6_search_filter_composition`: a two-story pool filtered
by `{query := "ai", minScore := 100}` keeps exactly the high-score story
whose title contains "AI". -/
theorem c6_search_filter_composition_witness :
    (searchStories upstreamListC6W upstreamItemC6W 0
        (mkClient { cacheOptions := none }) paramsC6W).1 = .ok [storyAIC6] ∧
    storyAIC6.type = some "story" ∧
    (100 : Int) ≤ storyAIC6.score.getD 0 := by
  have hres : (searchStories upstreamListC6W upstreamItemC6W 0
      (mkClient { cacheOptions := none }) paramsC6W).1
      = .ok [storyAIC6] := by decide
  have hall := (c6_search_filter_composition upstreamListC6W upstreamItemC6W
    0 (mkClient { cacheOptions := none }) paramsC6W [storyAIC6] hres).2.2
    storyAIC6 (by simp)
  refine ⟨hres, hall.1, ?_⟩
  have := hall.2.2.2.1 (by decide)
  simpa [paramsC6W] using this
